import Mathlib

/-!
# Flow classification and filtering (`filter.go`)

A shallow embedding of `src/filter.go` of the conntrack package, and the
properties of its NAT classification predicates and of `Filter`.

* Go's `net.IP` is a byte slice, embedded as a list of bytes, and
  `net.IP.Equal` is embedded after the standard library.
* The package-level variable `localIPs` is read-only after `init`; it is
  passed explicitly to every function that reads it.
* `init` is embedded on the two results of `net.InterfaceAddrs()`; a panic is
  an `Except.error`, and a `net.Addr` value carries its dynamic type.
* `FilterFlag` is `uint8`; only bitwise AND is applied to it, so it is
  embedded as a natural number (the theorems hold for every natural number,
  in particular for the values `0..255`).
-/

namespace Conntrack

/-! ## Data model -/

/-- Go's `byte`. -/
abbrev Byte := Fin 256

/-- Go's `net.IP`: a slice of bytes (4 bytes for IPv4, 16 for IPv6; a nil
slice has length 0). -/
abbrev IP := List Byte

/-- Go's `net.IPv4len`. -/
def IPv4len : Nat := 4

/-- Go's `net.IPv6len`. -/
def IPv6len : Nat := 16

/-- Go's `net.v4InV6Prefix`: the 12 leading bytes of an IPv4-mapped IPv6
address. -/
def v4InV6Prefix : List Byte := [0, 0, 0, 0, 0, 0, 0, 0, 0, 0, 0xff, 0xff]

/-- Go's `net.IP.Equal`: byte equality for slices of one length; an IPv4
address equals its 16-byte IPv4-mapped form; anything else is unequal. -/
def IP.Equal (ip x : IP) : Bool :=
  if ip.length = x.length then
    ip == x
  else if ip.length = IPv4len ∧ x.length = IPv6len then
    (x.take 12 == v4InV6Prefix) && (ip == x.drop 12)
  else if ip.length = IPv6len ∧ x.length = IPv4len then
    (ip.take 12 == v4InV6Prefix) && (ip.drop 12 == x)
  else
    false

/-- Go's `net.IPNet`: an address with its network mask. -/
structure IPNet where
  IP : IP
  Mask : List Byte
  deriving DecidableEq, Repr

/-- Modelled from the spec: the declaration of the tuple type of a flow is
not under src/. The spec's AddressTuple is an ordered pair (Source,
Destination) of IP addresses; these are the only fields `filter.go` reads. -/
structure AddressTuple where
  Source : IP
  Destination : IP
  deriving DecidableEq, Repr

/-- Modelled from the spec: the declaration of `Flow` is not under src/.
The spec's Flow has two AddressTuple fields, `Original` and `Reply`; these
are the only fields `filter.go` reads. -/
structure Flow where
  Original : AddressTuple
  Reply : AddressTuple
  deriving DecidableEq, Repr

/-- The type `FilterFlag` (`uint8` in the source). -/
abbrev FilterFlag := Nat

/-- `SNATFilter FilterFlag = 1 << iota` with `iota = 0`. -/
def SNATFilter : FilterFlag := 1 <<< 0

/-- Second constant of the block: `1 << 1`. -/
def DNATFilter : FilterFlag := 1 <<< 1

/-- Third constant of the block: `1 << 2`. -/
def RoutedFilter : FilterFlag := 1 <<< 2

/-- Fourth constant of the block: `1 << 3`. -/
def LocalFilter : FilterFlag := 1 <<< 3

/-! ## Operations -/

/-- The function `isLocalIP`: a linear scan of `localIPs` that returns at the
first entry whose `IP` component is `Equal` to `ip`. -/
def isLocalIP (localIPs : List IPNet) (ip : IP) : Bool :=
  match localIPs with
  | [] => false
  | localIP :: rest =>
    if IP.Equal localIP.IP ip then true else isLocalIP rest ip

/-- The function `isSNAT`. -/
def isSNAT (flow : Flow) : Bool :=
  if IP.Equal flow.Original.Source flow.Reply.Destination then
    false
  else if !(IP.Equal flow.Original.Destination flow.Reply.Source) then
    false
  else
    true

/-- The function `isDNAT`. -/
def isDNAT (flow : Flow) : Bool :=
  if IP.Equal flow.Original.Source flow.Reply.Destination
      && !(IP.Equal flow.Original.Destination flow.Reply.Source) then
    true
  else if !(IP.Equal flow.Original.Source flow.Reply.Source)
      && !(IP.Equal flow.Original.Source flow.Reply.Destination)
      && !(IP.Equal flow.Original.Destination flow.Reply.Source)
      && IP.Equal flow.Original.Destination flow.Reply.Destination then
    true
  else
    false

/-- The function `isLocal`. -/
def isLocal (localIPs : List IPNet) (flow : Flow) : Bool :=
  if IP.Equal flow.Original.Source flow.Reply.Destination
      && IP.Equal flow.Original.Destination flow.Reply.Source then
    if isLocalIP localIPs flow.Original.Source
        || isLocalIP localIPs flow.Original.Destination
        || isLocalIP localIPs flow.Reply.Source
        || isLocalIP localIPs flow.Reply.Destination then
      true
    else
      false
  else
    false

/-- The function `isRouted`. -/
def isRouted (localIPs : List IPNet) (flow : Flow) : Bool :=
  if IP.Equal flow.Original.Source flow.Reply.Destination
      && IP.Equal flow.Original.Destination flow.Reply.Source then
    if !(isLocalIP localIPs flow.Original.Source)
        && !(isLocalIP localIPs flow.Original.Destination)
        && !(isLocalIP localIPs flow.Reply.Source)
        && !(isLocalIP localIPs flow.Reply.Destination) then
      true
    else
      false
  else
    false

/-- The condition of the `if` in the loop body of `Filter`, for the four
booleans computed before the loop. -/
def keeps (localIPs : List IPNet) (snat dnat loc routed : Bool) (flow : Flow) : Bool :=
  (snat && isSNAT flow) ||
    (dnat && isDNAT flow) ||
    (loc && isLocal localIPs flow) ||
    (routed && isRouted localIPs flow)

/-- The function `Filter`: the loop over `flows` appends each flow that
meets the condition to `natFlows`, which starts empty. -/
def Filter (localIPs : List IPNet) (flows : List Flow) (which : FilterFlag) : List Flow :=
  let snat := decide ((which &&& SNATFilter) > 0)
  let dnat := decide ((which &&& DNATFilter) > 0)
  let loc := decide ((which &&& LocalFilter) > 0)
  let routed := decide ((which &&& RoutedFilter) > 0)
  flows.foldl
    (fun natFlows flow =>
      if keeps localIPs snat dnat loc routed flow then natFlows ++ [flow] else natFlows)
    []

/-- The function `FilterSNAT`. -/
def FilterSNAT (localIPs : List IPNet) (flows : List Flow) : List Flow :=
  Filter localIPs flows SNATFilter

/-- The function `FilterDNAT`. -/
def FilterDNAT (localIPs : List IPNet) (flows : List Flow) : List Flow :=
  Filter localIPs flows DNATFilter

/-- The function `FilterRouted`. -/
def FilterRouted (localIPs : List IPNet) (flows : List Flow) : List Flow :=
  Filter localIPs flows RoutedFilter

/-- The function `FilterLocal`. -/
def FilterLocal (localIPs : List IPNet) (flows : List Flow) : List Flow :=
  Filter localIPs flows LocalFilter

/-! ## Construction of the snapshot -/

/-- Go's `error`, by its message. -/
abbrev Error := String

/-- A value of Go's interface `net.Addr`, by its dynamic type: a `*net.IPNet`,
or an implementation of another type, for which `*net.IPAddr` stands (the
standard library returns it for anycast addresses on some hosts). -/
inductive Addr where
  | ipNet (n : IPNet)
  | ipAddr (ip : IP)
  deriving DecidableEq, Repr

/-- The two ways `init` can panic: `panic(err)`, and the run-time panic of the
single-value type assertion `address.(*net.IPNet)` on a value of another
dynamic type. -/
inductive Panic where
  | error (err : Error)
  | typeAssertion (address : Addr)
  deriving DecidableEq, Repr

/-- The initial value of the package variable: `make([]*net.IPNet, 0)`. -/
def localIPsInitial : List IPNet := []

/-- The loop of `init`: each address is asserted to be a `*net.IPNet` and
appended to `localIPs`; a failed assertion panics. -/
def appendAddresses (localIPs : List IPNet) (addresses : List Addr) :
    Except Panic (List IPNet) :=
  match addresses with
  | [] => Except.ok localIPs
  | address :: rest =>
    match address with
    | Addr.ipNet n => appendAddresses (localIPs ++ [n]) rest
    | Addr.ipAddr ip => Except.error (Panic.typeAssertion (Addr.ipAddr ip))

/-- The function `init`, on the two results `addresses, err` of
`net.InterfaceAddrs()` and the current value of `localIPs`; it yields the new
value of `localIPs` or the panic. -/
def init (localIPs : List IPNet) (addresses : List Addr) (err : Option Error) :
    Except Panic (List IPNet) :=
  match err with
  | some e => Except.error (Panic.error e)
  | none => appendAddresses localIPs addresses

/-! ## The flows of the spec's scenarios -/

/-- Address 192.168.1.5. -/
def ipLan5 : IP := [192, 168, 1, 5]

/-- Address 192.168.1.10. -/
def ipLan10 : IP := [192, 168, 1, 10]

/-- Address 192.168.1.100. -/
def ipLan100 : IP := [192, 168, 1, 100]

/-- Address 192.168.1.200. -/
def ipLan200 : IP := [192, 168, 1, 200]

/-- Address 93.184.216.34. -/
def ipRemote : IP := [93, 184, 216, 34]

/-- Address 203.0.113.10. -/
def ipWan : IP := [203, 0, 113, 10]

/-- Scenario A: 192.168.1.5 -> 93.184.216.34, reply 93.184.216.34 -> 203.0.113.10. -/
def scenarioA : Flow := ⟨⟨ipLan5, ipRemote⟩, ⟨ipRemote, ipWan⟩⟩

/-- Scenario B: 203.0.113.10 -> 192.168.1.100, reply 192.168.1.200 -> 203.0.113.10. -/
def scenarioB : Flow := ⟨⟨ipWan, ipLan100⟩, ⟨ipLan200, ipWan⟩⟩

/-- Scenarios C and D: 192.168.1.5 -> 192.168.1.10, reply 192.168.1.10 -> 192.168.1.5. -/
def scenarioC : Flow := ⟨⟨ipLan5, ipLan10⟩, ⟨ipLan10, ipLan5⟩⟩

/-- A flow with four pairwise distinct addresses:
192.168.1.5 -> 93.184.216.34, reply 192.168.1.200 -> 203.0.113.10. -/
def flowDistinct : Flow := ⟨⟨ipLan5, ipRemote⟩, ⟨ipLan200, ipWan⟩⟩

/-- The no-rewrite condition shared by `isLocal` and `isRouted`:
`Original.Source` equals `Reply.Destination` and `Original.Destination` equals
`Reply.Source`. -/
def noRewrite (flow : Flow) : Bool :=
  IP.Equal flow.Original.Source flow.Reply.Destination
    && IP.Equal flow.Original.Destination flow.Reply.Source

/-! ## Auxiliary lemmas -/

/-- The test `(which & flag) > 0` of a single-bit flag reads that bit. -/
theorem and_shiftLeft_pos (which i : Nat) :
    decide ((which &&& (1 <<< i)) > 0) = which.testBit i := by
  rw [Nat.one_shiftLeft]
  cases h : which.testBit i with
  | true =>
    have hb : (which &&& 2 ^ i).testBit i = true := by
      simp [Nat.testBit_and, h, Nat.testBit_two_pow_self]
    have hne : which &&& 2 ^ i ≠ 0 := by
      intro h0
      rw [h0] at hb
      simp at hb
    simpa using Nat.pos_of_ne_zero hne
  | false =>
    have h0 : which &&& 2 ^ i = 0 := by
      apply Nat.eq_of_testBit_eq
      intro j
      by_cases hij : i = j
      · subst hij
        simp [Nat.testBit_and, h]
      · simp [Nat.testBit_and, Nat.testBit_two_pow_of_ne hij]
    simp [h0]

/-- A loop that appends the elements meeting `p` to an accumulator yields the
accumulator followed by the elements meeting `p`, in order. -/
theorem foldl_append_if {α : Type} (p : α → Bool) (l : List α) (acc : List α) :
    l.foldl (fun natFlows x => if p x then natFlows ++ [x] else natFlows) acc
      = acc ++ l.filter p := by
  induction l generalizing acc with
  | nil => simp
  | cons x xs ih =>
    rw [List.foldl_cons, ih]
    cases hp : p x <;> simp [List.filter_cons, hp]

/-- The loop of `Filter` is a filter by the loop condition. -/
theorem Filter_eq_filter (localIPs : List IPNet) (flows : List Flow) (which : FilterFlag) :
    Filter localIPs flows which
      = flows.filter (keeps localIPs (which.testBit 0) (which.testBit 1)
          (which.testBit 3) (which.testBit 2)) := by
  unfold Filter SNATFilter DNATFilter LocalFilter RoutedFilter
  simp only [and_shiftLeft_pos]
  rw [foldl_append_if]
  simp

/-! ## Theorems -/

/-- C1: `Filter` returns the input list with exactly those flows kept, in
input order and with multiplicity, for which the SNAT bit (bit 0) is set and
`isSNAT` holds, or the DNAT bit (bit 1) is set and `isDNAT` holds, or the
Local bit (bit 3) is set and `isLocal` holds, or the Routed bit (bit 2) is set
and `isRouted` holds; every other flow is dropped. -/
theorem Filter_keeps_exactly_requested (localIPs : List IPNet) (flows : List Flow)
    (which : FilterFlag) :
    Filter localIPs flows which
      = flows.filter (fun flow =>
          (which.testBit 0 && isSNAT flow) ||
          (which.testBit 1 && isDNAT flow) ||
          (which.testBit 3 && isLocal localIPs flow) ||
          (which.testBit 2 && isRouted localIPs flow)) := by
  rw [Filter_eq_filter]
  rfl

/-- C2: `isSNAT` is true exactly when `Original.Destination` equals
`Reply.Source` and `Original.Source` does not equal `Reply.Destination`; it is
true for the flow of Scenario A. -/
theorem isSNAT_iff_and_scenarioA :
    (∀ flow : Flow, isSNAT flow = true ↔
      (IP.Equal flow.Original.Destination flow.Reply.Source = true ∧
        IP.Equal flow.Original.Source flow.Reply.Destination = false)) ∧
    isSNAT scenarioA = true := by
  refine ⟨fun flow => ?_, by decide⟩
  unfold isSNAT
  cases IP.Equal flow.Original.Source flow.Reply.Destination <;>
    cases IP.Equal flow.Original.Destination flow.Reply.Source <;> simp

/-- C3: `isDNAT` is true exactly when (a) `Original.Source` equals
`Reply.Destination` and `Original.Destination` does not equal `Reply.Source`,
or (b) `Original.Source` differs from `Reply.Source` and from
`Reply.Destination`, `Original.Destination` differs from `Reply.Source`, and
`Original.Destination` equals `Reply.Destination`; it is true for the flow of
Scenario B. -/
theorem isDNAT_iff_and_scenarioB :
    (∀ flow : Flow, isDNAT flow = true ↔
      ((IP.Equal flow.Original.Source flow.Reply.Destination = true ∧
          IP.Equal flow.Original.Destination flow.Reply.Source = false) ∨
        (IP.Equal flow.Original.Source flow.Reply.Source = false ∧
          IP.Equal flow.Original.Source flow.Reply.Destination = false ∧
          IP.Equal flow.Original.Destination flow.Reply.Source = false ∧
          IP.Equal flow.Original.Destination flow.Reply.Destination = true))) ∧
    isDNAT scenarioB = true := by
  refine ⟨fun flow => ?_, by decide⟩
  unfold isDNAT
  cases IP.Equal flow.Original.Source flow.Reply.Destination <;>
    cases IP.Equal flow.Original.Destination flow.Reply.Source <;>
    cases IP.Equal flow.Original.Source flow.Reply.Source <;>
    cases IP.Equal flow.Original.Destination flow.Reply.Destination <;> simp

/-- C4: `isLocal` is true exactly when `Original.Source` equals
`Reply.Destination`, `Original.Destination` equals `Reply.Source`, and at
least one of the four addresses is a member of the snapshot (`isLocalIP`);
for the flow of Scenario C, under every snapshot in which 192.168.1.5 is
local, `isLocal` is true and `isRouted` is false. -/
theorem isLocal_iff_and_scenarioC :
    (∀ (localIPs : List IPNet) (flow : Flow), isLocal localIPs flow = true ↔
      (IP.Equal flow.Original.Source flow.Reply.Destination = true ∧
        IP.Equal flow.Original.Destination flow.Reply.Source = true ∧
        (isLocalIP localIPs flow.Original.Source = true ∨
          isLocalIP localIPs flow.Original.Destination = true ∨
          isLocalIP localIPs flow.Reply.Source = true ∨
          isLocalIP localIPs flow.Reply.Destination = true))) ∧
    (∀ localIPs : List IPNet, isLocalIP localIPs ipLan5 = true →
      isLocal localIPs scenarioC = true ∧ isRouted localIPs scenarioC = false) := by
  constructor
  · intro localIPs flow
    unfold isLocal
    cases IP.Equal flow.Original.Source flow.Reply.Destination <;>
      cases IP.Equal flow.Original.Destination flow.Reply.Source <;>
      simp [or_assoc]
  · intro localIPs h
    have e1 : IP.Equal ipLan5 ipLan5 = true := by decide
    have e2 : IP.Equal ipLan10 ipLan10 = true := by decide
    simp [isLocal, isRouted, scenarioC, h, e1, e2]

/-- Scenario C under the snapshot holding 192.168.1.5/24 alone. -/
theorem isLocal_iff_and_scenarioC_witness :
    isLocalIP [⟨ipLan5, [255, 255, 255, 0]⟩] ipLan5 = true ∧
      (isLocal [⟨ipLan5, [255, 255, 255, 0]⟩] scenarioC = true ∧
        isRouted [⟨ipLan5, [255, 255, 255, 0]⟩] scenarioC = false) :=
  ⟨by decide, isLocal_iff_and_scenarioC.2 [⟨ipLan5, [255, 255, 255, 0]⟩] (by decide)⟩

/-- C5: `isRouted` is true exactly when `Original.Source` equals
`Reply.Destination`, `Original.Destination` equals `Reply.Source`, and none of
the four addresses is a member of the snapshot (`isLocalIP`); for the flow of
Scenario D, under every snapshot in which neither 192.168.1.5 nor 192.168.1.10
is local, `isRouted` is true and `isLocal` is false. -/
theorem isRouted_iff_and_scenarioD :
    (∀ (localIPs : List IPNet) (flow : Flow), isRouted localIPs flow = true ↔
      (IP.Equal flow.Original.Source flow.Reply.Destination = true ∧
        IP.Equal flow.Original.Destination flow.Reply.Source = true ∧
        isLocalIP localIPs flow.Original.Source = false ∧
        isLocalIP localIPs flow.Original.Destination = false ∧
        isLocalIP localIPs flow.Reply.Source = false ∧
        isLocalIP localIPs flow.Reply.Destination = false)) ∧
    (∀ localIPs : List IPNet, isLocalIP localIPs ipLan5 = false →
      isLocalIP localIPs ipLan10 = false →
      isRouted localIPs scenarioC = true ∧ isLocal localIPs scenarioC = false) := by
  constructor
  · intro localIPs flow
    unfold isRouted
    cases IP.Equal flow.Original.Source flow.Reply.Destination <;>
      cases IP.Equal flow.Original.Destination flow.Reply.Source <;>
      simp [and_assoc]
  · intro localIPs h5 h10
    have e1 : IP.Equal ipLan5 ipLan5 = true := by decide
    have e2 : IP.Equal ipLan10 ipLan10 = true := by decide
    simp [isLocal, isRouted, scenarioC, h5, h10, e1, e2]

/-- Scenario D under the snapshot holding 203.0.113.10/24 alone. -/
theorem isRouted_iff_and_scenarioD_witness :
    isLocalIP [⟨ipWan, [255, 255, 255, 0]⟩] ipLan5 = false ∧
      isLocalIP [⟨ipWan, [255, 255, 255, 0]⟩] ipLan10 = false ∧
      (isRouted [⟨ipWan, [255, 255, 255, 0]⟩] scenarioC = true ∧
        isLocal [⟨ipWan, [255, 255, 255, 0]⟩] scenarioC = false) :=
  ⟨by decide, by decide,
    isRouted_iff_and_scenarioD.2 [⟨ipWan, [255, 255, 255, 0]⟩] (by decide) (by decide)⟩

/-- C6: the output of `Filter` is a subsequence of the input: there is a
strictly increasing map from output positions to input positions under which
every output flow is the input flow at the mapped position (so flows are
unmodified, keep their relative order, and no input position is emitted
twice), every output flow is an input flow, and the output is never longer
than the input. -/
theorem Filter_subsequence (localIPs : List IPNet) (flows : List Flow)
    (which : FilterFlag) :
    List.Sublist (Filter localIPs flows which) flows ∧
    (∃ f : Fin (Filter localIPs flows which).length → Fin flows.length,
      StrictMono f ∧
      ∀ ix : Fin (Filter localIPs flows which).length,
        (Filter localIPs flows which).get ix = flows.get (f ix)) ∧
    (∀ flow : Flow, flow ∈ Filter localIPs flows which → flow ∈ flows) ∧
    (Filter localIPs flows which).length ≤ flows.length := by
  have hsub : List.Sublist (Filter localIPs flows which) flows := by
    rw [Filter_eq_filter]
    exact List.filter_sublist flows
  refine ⟨hsub, ?_, fun flow h => hsub.subset h, hsub.length_le⟩
  obtain ⟨f, hf⟩ := List.sublist_iff_exists_fin_orderEmbedding_get_eq.mp hsub
  exact ⟨f, f.strictMono, hf⟩

/-- C7: when `Original.Source` equals `Reply.Destination` and
`Original.Destination` equals `Reply.Source`, exactly one of `isLocal` and
`isRouted` is true; when that condition fails, both are false. -/
theorem isLocal_isRouted_exactly_one (localIPs : List IPNet) (flow : Flow) :
    ((IP.Equal flow.Original.Source flow.Reply.Destination = true ∧
        IP.Equal flow.Original.Destination flow.Reply.Source = true) →
      ((isLocal localIPs flow = true ∧ isRouted localIPs flow = false) ∨
        (isLocal localIPs flow = false ∧ isRouted localIPs flow = true))) ∧
    (¬ (IP.Equal flow.Original.Source flow.Reply.Destination = true ∧
        IP.Equal flow.Original.Destination flow.Reply.Source = true) →
      (isLocal localIPs flow = false ∧ isRouted localIPs flow = false)) := by
  unfold isLocal isRouted
  cases IP.Equal flow.Original.Source flow.Reply.Destination <;>
    cases IP.Equal flow.Original.Destination flow.Reply.Source <;>
    cases isLocalIP localIPs flow.Original.Source <;>
    cases isLocalIP localIPs flow.Original.Destination <;>
    cases isLocalIP localIPs flow.Reply.Source <;>
    cases isLocalIP localIPs flow.Reply.Destination <;> simp

/-- The flow of Scenario C meets the no-rewrite condition and is local and not
routed under the snapshot holding 192.168.1.10/24; the flow of Scenario A
fails the condition and is neither. -/
theorem isLocal_isRouted_exactly_one_witness :
    ((IP.Equal scenarioC.Original.Source scenarioC.Reply.Destination = true ∧
        IP.Equal scenarioC.Original.Destination scenarioC.Reply.Source = true) ∧
      ((isLocal [⟨ipLan10, [255, 255, 255, 0]⟩] scenarioC = true ∧
          isRouted [⟨ipLan10, [255, 255, 255, 0]⟩] scenarioC = false) ∨
        (isLocal [⟨ipLan10, [255, 255, 255, 0]⟩] scenarioC = false ∧
          isRouted [⟨ipLan10, [255, 255, 255, 0]⟩] scenarioC = true))) ∧
    (¬ (IP.Equal scenarioA.Original.Source scenarioA.Reply.Destination = true ∧
        IP.Equal scenarioA.Original.Destination scenarioA.Reply.Source = true) ∧
      (isLocal [⟨ipLan10, [255, 255, 255, 0]⟩] scenarioA = false ∧
        isRouted [⟨ipLan10, [255, 255, 255, 0]⟩] scenarioA = false)) :=
  ⟨⟨by decide,
      (isLocal_isRouted_exactly_one [⟨ipLan10, [255, 255, 255, 0]⟩] scenarioC).1 (by decide)⟩,
    ⟨by decide,
      (isLocal_isRouted_exactly_one [⟨ipLan10, [255, 255, 255, 0]⟩] scenarioA).2 (by decide)⟩⟩

/-- C8: for every flow, `isSNAT` and `isDNAT` are not both true. -/
theorem isSNAT_isDNAT_not_both (flow : Flow) :
    (isSNAT flow && isDNAT flow) = false := by
  unfold isSNAT isDNAT
  cases IP.Equal flow.Original.Source flow.Reply.Destination <;>
    cases IP.Equal flow.Original.Destination flow.Reply.Source <;> simp

/-- C9: `Filter` is idempotent: under one snapshot, filtering the result of
`Filter` again with the same mask returns it unchanged. -/
theorem Filter_idempotent (localIPs : List IPNet) (flows : List Flow)
    (which : FilterFlag) :
    Filter localIPs (Filter localIPs flows which) which
      = Filter localIPs flows which := by
  simp only [Filter_eq_filter, List.filter_filter, Bool.and_self]

/-- C10: `Filter` on an empty flow list returns the empty list for every mask
and snapshot, and `Filter` with the empty mask returns the empty list for
every flow list and snapshot; `Filter` is total: it yields a list on every
input (the source has no error result and no operation that can panic). -/
theorem Filter_empty_input_or_mask :
    (∀ (localIPs : List IPNet) (which : FilterFlag), Filter localIPs [] which = []) ∧
    (∀ (localIPs : List IPNet) (flows : List Flow), Filter localIPs flows 0 = []) ∧
    (∀ (localIPs : List IPNet) (flows : List Flow) (which : FilterFlag),
      ∃ natFlows : List Flow, Filter localIPs flows which = natFlows) := by
  refine ⟨fun localIPs which => rfl, fun localIPs flows => ?_,
    fun localIPs flows which => ⟨_, rfl⟩⟩
  rw [Filter_eq_filter]
  simp [keeps]

/-- With only the SNAT request set, the loop condition is `isSNAT`. -/
theorem keeps_snat_only (localIPs : List IPNet) :
    keeps localIPs true false false false = isSNAT := by
  funext flow
  simp [keeps]

/-- With only the DNAT request set, the loop condition is `isDNAT`. -/
theorem keeps_dnat_only (localIPs : List IPNet) :
    keeps localIPs false true false false = isDNAT := by
  funext flow
  simp [keeps]

/-- With only the Local request set, the loop condition is `isLocal`. -/
theorem keeps_local_only (localIPs : List IPNet) :
    keeps localIPs false false true false = isLocal localIPs := by
  funext flow
  simp [keeps]

/-- With only the Routed request set, the loop condition is `isRouted`. -/
theorem keeps_routed_only (localIPs : List IPNet) :
    keeps localIPs false false false true = isRouted localIPs := by
  funext flow
  simp [keeps]

/-- C11: each convenience wrapper is `Filter` with its own flag and selects
exactly the flows of its own category, in input order: `FilterSNAT` those
satisfying `isSNAT`, `FilterDNAT` those satisfying `isDNAT`, `FilterRouted`
those satisfying `isRouted`, `FilterLocal` those satisfying `isLocal`. -/
theorem wrappers_select_own_category (localIPs : List IPNet) (flows : List Flow) :
    (FilterSNAT localIPs flows = Filter localIPs flows SNATFilter ∧
      FilterSNAT localIPs flows = flows.filter isSNAT) ∧
    (FilterDNAT localIPs flows = Filter localIPs flows DNATFilter ∧
      FilterDNAT localIPs flows = flows.filter isDNAT) ∧
    (FilterRouted localIPs flows = Filter localIPs flows RoutedFilter ∧
      FilterRouted localIPs flows = flows.filter (isRouted localIPs)) ∧
    (FilterLocal localIPs flows = Filter localIPs flows LocalFilter ∧
      FilterLocal localIPs flows = flows.filter (isLocal localIPs)) := by
  have b0 : Nat.testBit SNATFilter 0 = true ∧ Nat.testBit SNATFilter 1 = false ∧
      Nat.testBit SNATFilter 2 = false ∧ Nat.testBit SNATFilter 3 = false := by decide
  have b1 : Nat.testBit DNATFilter 0 = false ∧ Nat.testBit DNATFilter 1 = true ∧
      Nat.testBit DNATFilter 2 = false ∧ Nat.testBit DNATFilter 3 = false := by decide
  have b2 : Nat.testBit RoutedFilter 0 = false ∧ Nat.testBit RoutedFilter 1 = false ∧
      Nat.testBit RoutedFilter 2 = true ∧ Nat.testBit RoutedFilter 3 = false := by decide
  have b3 : Nat.testBit LocalFilter 0 = false ∧ Nat.testBit LocalFilter 1 = false ∧
      Nat.testBit LocalFilter 2 = false ∧ Nat.testBit LocalFilter 3 = true := by decide
  refine ⟨⟨rfl, ?_⟩, ⟨rfl, ?_⟩, ⟨rfl, ?_⟩, ⟨rfl, ?_⟩⟩
  · rw [FilterSNAT, Filter_eq_filter, b0.1, b0.2.1, b0.2.2.1, b0.2.2.2, keeps_snat_only]
  · rw [FilterDNAT, Filter_eq_filter, b1.1, b1.2.1, b1.2.2.1, b1.2.2.2, keeps_dnat_only]
  · rw [FilterRouted, Filter_eq_filter, b2.1, b2.2.1, b2.2.2.1, b2.2.2.2, keeps_routed_only]
  · rw [FilterLocal, Filter_eq_filter, b3.1, b3.2.1, b3.2.2.1, b3.2.2.2, keeps_local_only]

/-- C12: for the list of the flows of Scenarios A, B, C and D (C and D are
one flow) and every snapshot, `Filter` with mask `SNATFilter|DNATFilter`
returns exactly the flows of Scenarios A and B, in that order. -/
theorem Filter_scenarios_snat_or_dnat (localIPs : List IPNet) :
    Filter localIPs [scenarioA, scenarioB, scenarioC, scenarioC]
        (SNATFilter ||| DNATFilter)
      = [scenarioA, scenarioB] := by
  have hb : Nat.testBit (SNATFilter ||| DNATFilter) 0 = true ∧
      Nat.testBit (SNATFilter ||| DNATFilter) 1 = true ∧
      Nat.testBit (SNATFilter ||| DNATFilter) 2 = false ∧
      Nat.testBit (SNATFilter ||| DNATFilter) 3 = false := by decide
  have hA : isSNAT scenarioA = true := by decide
  have hB : isDNAT scenarioB = true := by decide
  have hC : isSNAT scenarioC = false ∧ isDNAT scenarioC = false := by decide
  rw [Filter_eq_filter, hb.1, hb.2.1, hb.2.2.1, hb.2.2.2]
  simp [List.filter_cons, keeps, hA, hB, hC.1, hC.2]

/-- Membership in the snapshot is the existence of an entry whose `IP`
component is `Equal` to the address. -/
theorem isLocalIP_iff_exists (localIPs : List IPNet) (ip : IP) :
    isLocalIP localIPs ip = true ↔ ∃ e ∈ localIPs, IP.Equal e.IP ip = true := by
  induction localIPs with
  | nil => simp [isLocalIP]
  | cons e rest ih =>
    unfold isLocalIP
    cases h : IP.Equal e.IP ip <;> simp [h, ih]

/-- C13: `isLocalIP` is true exactly when some entry of the snapshot has an
`IP` component equal to the address; the masks of the entries play no role
(rewriting every mask leaves the result unchanged, and 192.168.1.10, inside
the subnet of the entry 192.168.1.5/24 but not listed, is not a member); on
the empty snapshot it is false for every address. -/
theorem isLocalIP_exact_match :
    (∀ (localIPs : List IPNet) (ip : IP),
      isLocalIP localIPs ip = true ↔ ∃ e ∈ localIPs, IP.Equal e.IP ip = true) ∧
    (∀ (localIPs : List IPNet) (g : List Byte → List Byte) (ip : IP),
      isLocalIP (localIPs.map (fun e => IPNet.mk e.IP (g e.Mask))) ip
        = isLocalIP localIPs ip) ∧
    isLocalIP [IPNet.mk ipLan5 [255, 255, 255, 0]] ipLan10 = false ∧
    (∀ ip : IP, isLocalIP [] ip = false) := by
  refine ⟨isLocalIP_iff_exists, ?_, by decide, fun ip => rfl⟩
  intro localIPs g ip
  induction localIPs with
  | nil => rfl
  | cons e rest ih =>
    simp only [List.map_cons, isLocalIP, ih]

/-- The loop of `init` over addresses that are all `*net.IPNet` values
succeeds and appends them in order. -/
theorem appendAddresses_ipNet (nets : List IPNet) (localIPs : List IPNet) :
    appendAddresses localIPs (nets.map Addr.ipNet) = Except.ok (localIPs ++ nets) := by
  induction nets generalizing localIPs with
  | nil => simp [appendAddresses]
  | cons n rest ih =>
    simp only [List.map_cons, appendAddresses, ih, List.append_assoc, List.singleton_append]

/-- C14, as stated, fails: the enumeration succeeds (no error) with the
addresses 192.168.1.5/24, a `*net.IPNet`, and 203.0.113.10, of another
dynamic type, and `init` panics at the type assertion instead of building
the snapshot. -/
theorem init_panics_on_other_address_type :
    init localIPsInitial
        [Addr.ipNet (IPNet.mk ipLan5 [255, 255, 255, 0]), Addr.ipAddr ipWan] none
      = Except.error (Panic.typeAssertion (Addr.ipAddr ipWan)) := by
  rfl

/-- C14, amended: `init` panics with the error when the enumeration returns
an error; when the enumeration succeeds and every enumerated address is a
`*net.IPNet`, `init` does not panic and the snapshot holds every enumerated
address, in enumeration order, and nothing else. -/
theorem init_snapshot_of_ipNet_addresses :
    (∀ (localIPs : List IPNet) (addresses : List Addr) (e : Error),
      init localIPs addresses (some e) = Except.error (Panic.error e)) ∧
    (∀ nets : List IPNet,
      init localIPsInitial (nets.map Addr.ipNet) none = Except.ok nets) := by
  refine ⟨fun localIPs addresses e => rfl, fun nets => ?_⟩
  simp [init, appendAddresses_ipNet, localIPsInitial]

/-- The loop condition under the union of two masks is the disjunction of
the loop conditions under each. -/
theorem keeps_or (localIPs : List IPNet) (a b : FilterFlag) (flow : Flow) :
    keeps localIPs ((a ||| b).testBit 0) ((a ||| b).testBit 1)
        ((a ||| b).testBit 3) ((a ||| b).testBit 2) flow
      = (keeps localIPs (a.testBit 0) (a.testBit 1) (a.testBit 3) (a.testBit 2) flow
          || keeps localIPs (b.testBit 0) (b.testBit 1) (b.testBit 3) (b.testBit 2) flow) := by
  simp only [Nat.testBit_or, keeps]
  cases a.testBit 0 <;> cases a.testBit 1 <;> cases a.testBit 2 <;> cases a.testBit 3 <;>
    cases isSNAT flow <;> cases isDNAT flow <;> cases isLocal localIPs flow <;>
    cases isRouted localIPs flow <;> simp

/-- A flow is in the output of `Filter` exactly when it is in the input and
meets the loop condition. -/
theorem mem_Filter_iff (localIPs : List IPNet) (flows : List Flow) (which : FilterFlag)
    (flow : Flow) :
    flow ∈ Filter localIPs flows which ↔
      flow ∈ flows ∧
        keeps localIPs (which.testBit 0) (which.testBit 1) (which.testBit 3)
          (which.testBit 2) flow = true := by
  rw [Filter_eq_filter, List.mem_filter]

/-- C15: masks combine as set union: a flow is in `Filter flows (a|b)`
exactly when it is in `Filter flows a` or in `Filter flows b`; position by
position, `Filter flows (a|b)` keeps the input flows that `Filter flows a` or
`Filter flows b` keeps; and `Filter flows a` is a subsequence of
`Filter flows (a|b)`. -/
theorem Filter_or_is_union (localIPs : List IPNet) (flows : List Flow)
    (a b : FilterFlag) :
    (∀ flow : Flow, flow ∈ Filter localIPs flows (a ||| b) ↔
      (flow ∈ Filter localIPs flows a ∨ flow ∈ Filter localIPs flows b)) ∧
    Filter localIPs flows (a ||| b)
      = flows.filter (fun flow =>
          decide (flow ∈ Filter localIPs flows a)
            || decide (flow ∈ Filter localIPs flows b)) ∧
    List.Sublist (Filter localIPs flows a) (Filter localIPs flows (a ||| b)) := by
  refine ⟨fun flow => ?_, ?_, ?_⟩
  · simp only [mem_Filter_iff, keeps_or, Bool.or_eq_true]
    tauto
  · rw [Filter_eq_filter]
    apply List.filter_congr
    intro flow hmem
    simp only [mem_Filter_iff, keeps_or, hmem, true_and, Bool.decide_eq_true]
  · have h : Filter localIPs flows a
        = (Filter localIPs flows (a ||| b)).filter
            (keeps localIPs (a.testBit 0) (a.testBit 1) (a.testBit 3) (a.testBit 2)) := by
      simp only [Filter_eq_filter, List.filter_filter]
      apply List.filter_congr
      intro flow _
      rw [keeps_or]
      cases keeps localIPs (a.testBit 0) (a.testBit 1) (a.testBit 3) (a.testBit 2) flow <;>
        simp
    rw [h]
    exact List.filter_sublist _

/-- C16: `Filter` distributes over concatenation of flow lists. -/
theorem Filter_append (localIPs : List IPNet) (xs ys : List Flow) (which : FilterFlag) :
    Filter localIPs (xs ++ ys) which
      = Filter localIPs xs which ++ Filter localIPs ys which := by
  simp only [Filter_eq_filter, List.filter_append]

/-- C17: the four categories are pairwise mutually exclusive: for every flow
and snapshot at most one of `isSNAT`, `isDNAT`, `isLocal`, `isRouted` is
true; in particular no flow is both a NAT flow and a Local or Routed flow. -/
theorem categories_pairwise_exclusive (localIPs : List IPNet) (flow : Flow) :
    (isSNAT flow).toNat + (isDNAT flow).toNat + (isLocal localIPs flow).toNat
        + (isRouted localIPs flow).toNat ≤ 1 ∧
    (isSNAT flow && isDNAT flow) = false ∧
    (isSNAT flow && isLocal localIPs flow) = false ∧
    (isSNAT flow && isRouted localIPs flow) = false ∧
    (isDNAT flow && isLocal localIPs flow) = false ∧
    (isDNAT flow && isRouted localIPs flow) = false ∧
    (isLocal localIPs flow && isRouted localIPs flow) = false := by
  unfold isSNAT isDNAT isLocal isRouted
  cases IP.Equal flow.Original.Source flow.Reply.Destination <;>
    cases IP.Equal flow.Original.Destination flow.Reply.Source <;>
    cases IP.Equal flow.Original.Source flow.Reply.Source <;>
    cases IP.Equal flow.Original.Destination flow.Reply.Destination <;>
    cases isLocalIP localIPs flow.Original.Source <;>
    cases isLocalIP localIPs flow.Original.Destination <;>
    cases isLocalIP localIPs flow.Reply.Source <;>
    cases isLocalIP localIPs flow.Reply.Destination <;> decide

/-- C18: the classification is not exhaustive: for a flow `a -> b` with
reply `c -> d` whose four addresses are pairwise unequal, `isSNAT`, `isDNAT`,
`isLocal` and `isRouted` are all false under every snapshot; for the flow
192.168.1.5 -> 93.184.216.34 with reply 192.168.1.200 -> 203.0.113.10,
`Filter` with all four bits set (mask 15) returns the empty list, fewer flows
than it was given, under every snapshot. -/
theorem classification_not_exhaustive :
    (∀ (a b c d : IP), List.Pairwise (fun x y => IP.Equal x y = false) [a, b, c, d] →
      ∀ localIPs : List IPNet,
        isSNAT (Flow.mk ⟨a, b⟩ ⟨c, d⟩) = false ∧
        isDNAT (Flow.mk ⟨a, b⟩ ⟨c, d⟩) = false ∧
        isLocal localIPs (Flow.mk ⟨a, b⟩ ⟨c, d⟩) = false ∧
        isRouted localIPs (Flow.mk ⟨a, b⟩ ⟨c, d⟩) = false) ∧
    (∀ localIPs : List IPNet,
      Filter localIPs [flowDistinct] 15 = [] ∧
        (Filter localIPs [flowDistinct] 15).length < [flowDistinct].length) := by
  have hgen : ∀ (a b c d : IP),
      List.Pairwise (fun x y => IP.Equal x y = false) [a, b, c, d] →
      ∀ localIPs : List IPNet,
        isSNAT (Flow.mk ⟨a, b⟩ ⟨c, d⟩) = false ∧
        isDNAT (Flow.mk ⟨a, b⟩ ⟨c, d⟩) = false ∧
        isLocal localIPs (Flow.mk ⟨a, b⟩ ⟨c, d⟩) = false ∧
        isRouted localIPs (Flow.mk ⟨a, b⟩ ⟨c, d⟩) = false := by
    intro a b c d h localIPs
    simp only [List.pairwise_cons, List.mem_cons, List.mem_singleton, forall_eq_or_imp,
      forall_eq, List.not_mem_nil, false_implies, implies_true, List.Pairwise.nil,
      and_true] at h
    obtain ⟨⟨_, _, had⟩, ⟨hbc, hbd⟩, _⟩ := h
    simp [isSNAT, isDNAT, isLocal, isRouted, had, hbc, hbd]
  refine ⟨hgen, fun localIPs => ?_⟩
  have hp : List.Pairwise (fun x y => IP.Equal x y = false)
      [ipLan5, ipRemote, ipLan200, ipWan] := by decide
  have h4 := hgen ipLan5 ipRemote ipLan200 ipWan hp localIPs
  have he : Filter localIPs [flowDistinct] 15 = [] := by
    rw [Filter_eq_filter]
    simp [keeps, flowDistinct, h4.1, h4.2.1, h4.2.2.1, h4.2.2.2]
  exact ⟨he, by simp [he]⟩

/-- The four addresses 192.168.1.5, 93.184.216.34, 192.168.1.200 and
203.0.113.10 are pairwise unequal, and the flow made of them is in no
category under the snapshot holding 192.168.1.5/24. -/
theorem classification_not_exhaustive_witness :
    List.Pairwise (fun x y => IP.Equal x y = false) [ipLan5, ipRemote, ipLan200, ipWan] ∧
      (isSNAT (Flow.mk ⟨ipLan5, ipRemote⟩ ⟨ipLan200, ipWan⟩) = false ∧
        isDNAT (Flow.mk ⟨ipLan5, ipRemote⟩ ⟨ipLan200, ipWan⟩) = false ∧
        isLocal [IPNet.mk ipLan5 [255, 255, 255, 0]]
          (Flow.mk ⟨ipLan5, ipRemote⟩ ⟨ipLan200, ipWan⟩) = false ∧
        isRouted [IPNet.mk ipLan5 [255, 255, 255, 0]]
          (Flow.mk ⟨ipLan5, ipRemote⟩ ⟨ipLan200, ipWan⟩) = false) :=
  ⟨by decide,
    classification_not_exhaustive.1 ipLan5 ipRemote ipLan200 ipWan (by decide)
      [IPNet.mk ipLan5 [255, 255, 255, 0]]⟩

/-- A flow is local or routed exactly when it meets the no-rewrite
condition, whatever the snapshot. -/
theorem isLocal_or_isRouted (localIPs : List IPNet) (flow : Flow) :
    (isLocal localIPs flow || isRouted localIPs flow) = noRewrite flow := by
  unfold isLocal isRouted noRewrite
  cases IP.Equal flow.Original.Source flow.Reply.Destination <;>
    cases IP.Equal flow.Original.Destination flow.Reply.Source <;>
    cases isLocalIP localIPs flow.Original.Source <;>
    cases isLocalIP localIPs flow.Original.Destination <;>
    cases isLocalIP localIPs flow.Reply.Source <;>
    cases isLocalIP localIPs flow.Reply.Destination <;> decide

/-- When the Local and Routed requests agree, the loop condition does not
read the snapshot. -/
theorem keeps_same_local_routed (localIPs : List IPNet) (snat dnat lr : Bool)
    (flow : Flow) :
    keeps localIPs snat dnat lr lr flow
      = ((snat && isSNAT flow) || (dnat && isDNAT flow) || (lr && noRewrite flow)) := by
  rw [← isLocal_or_isRouted localIPs flow]
  unfold keeps
  cases snat <;> cases dnat <;> cases lr <;> cases isSNAT flow <;> cases isDNAT flow <;>
    cases isLocal localIPs flow <;> cases isRouted localIPs flow <;> decide

/-- C19: when the Local bit (bit 3) and the Routed bit (bit 2) of the mask
are both unset or both set, the result of `Filter` is the same under every
two snapshots; with mask `LocalFilter|RoutedFilter`, `Filter` retains exactly
the flows that meet the no-rewrite condition. -/
theorem Filter_snapshot_independent (L1 L2 : List IPNet) (flows : List Flow)
    (which : FilterFlag) :
    (which.testBit 3 = which.testBit 2 →
      Filter L1 flows which = Filter L2 flows which) ∧
    Filter L1 flows (LocalFilter ||| RoutedFilter) = flows.filter noRewrite := by
  constructor
  · intro h
    rw [Filter_eq_filter, Filter_eq_filter, h]
    apply List.filter_congr
    intro flow _
    rw [keeps_same_local_routed, keeps_same_local_routed]
  · have hb : Nat.testBit (LocalFilter ||| RoutedFilter) 0 = false ∧
        Nat.testBit (LocalFilter ||| RoutedFilter) 1 = false ∧
        Nat.testBit (LocalFilter ||| RoutedFilter) 2 = true ∧
        Nat.testBit (LocalFilter ||| RoutedFilter) 3 = true := by decide
    rw [Filter_eq_filter, hb.1, hb.2.1, hb.2.2.1, hb.2.2.2]
    apply List.filter_congr
    intro flow _
    rw [keeps_same_local_routed]
    simp

/-- Mask 13 has the Local and Routed bits both set (and the SNAT bit); the
flows of Scenarios A, B and C are filtered alike under the snapshot holding
192.168.1.5/24 and under the empty snapshot. -/
theorem Filter_snapshot_independent_witness :
    Nat.testBit 13 3 = Nat.testBit 13 2 ∧
      Filter [IPNet.mk ipLan5 [255, 255, 255, 0]] [scenarioA, scenarioB, scenarioC] 13
        = Filter [] [scenarioA, scenarioB, scenarioC] 13 :=
  ⟨by decide,
    (Filter_snapshot_independent [IPNet.mk ipLan5 [255, 255, 255, 0]] []
      [scenarioA, scenarioB, scenarioC] 13).1 (by decide)⟩

/-- The low four bits of a mask are those of the mask ANDed with 15. -/
theorem testBit_and_15 (which i : Nat) (hi : i < 4) :
    (which &&& 15).testBit i = which.testBit i := by
  have h15 : Nat.testBit 15 i = true := by
    interval_cases i <;> decide
  rw [Nat.testBit_and, h15, Bool.and_true]

/-- C20: the category flags are the four distinct single bits
`SNATFilter = 1`, `DNATFilter = 2`, `RoutedFilter = 4`, `LocalFilter = 8`,
each within the 8-bit range; `Filter` ignores every bit above the low four:
`Filter flows mask = Filter flows (mask AND 15)`, so a mask whose low four
bits are all unset returns the empty list. -/
theorem flags_are_low_four_bits :
    (SNATFilter = 1 ∧ DNATFilter = 2 ∧ RoutedFilter = 4 ∧ LocalFilter = 8) ∧
    (SNATFilter < 256 ∧ DNATFilter < 256 ∧ RoutedFilter < 256 ∧ LocalFilter < 256) ∧
    (∀ (localIPs : List IPNet) (flows : List Flow) (which : FilterFlag),
      Filter localIPs flows which = Filter localIPs flows (which &&& 15)) ∧
    (∀ (localIPs : List IPNet) (flows : List Flow) (which : FilterFlag),
      which &&& 15 = 0 → Filter localIPs flows which = []) := by
  have hmask : ∀ (localIPs : List IPNet) (flows : List Flow) (which : FilterFlag),
      Filter localIPs flows which = Filter localIPs flows (which &&& 15) := by
    intro localIPs flows which
    rw [Filter_eq_filter, Filter_eq_filter, testBit_and_15 which 0 (by decide),
      testBit_and_15 which 1 (by decide), testBit_and_15 which 2 (by decide),
      testBit_and_15 which 3 (by decide)]
  refine ⟨by decide, by decide, hmask, ?_⟩
  intro localIPs flows which h
  rw [hmask, h, Filter_eq_filter]
  simp [keeps]

/-- Mask 240 has only upper bits set, and `Filter` returns the empty list on
the flows of Scenarios A, B and C under the snapshot holding 192.168.1.5/24. -/
theorem flags_are_low_four_bits_witness :
    240 &&& 15 = 0 ∧
      Filter [IPNet.mk ipLan5 [255, 255, 255, 0]] [scenarioA, scenarioB, scenarioC] 240
        = [] :=
  ⟨by decide,
    flags_are_low_four_bits.2.2.2 [IPNet.mk ipLan5 [255, 255, 255, 0]]
      [scenarioA, scenarioB, scenarioC] 240 (by decide)⟩

end Conntrack
